import Mathlib

/-!
Shallow embedding of the request-form application `appsolicitud.py`
(repository Alpizar22/app_solicitudes) together with proofs about its
upload validation, retry/backoff wrapper, cascading selection form,
and submission handlers.
-/

namespace AppSolicitud

/-! ## Python string primitives

`str.lower` and `str.strip` (ASCII range, as used by the app),
implemented structurally over character lists. -/

/-- The whitespace set of Python `str.strip()`. -/
def isSpaceChar (c : Char) : Bool :=
  c == ' ' || c == '\t' || c == '\n' || c == '\r' || c == '\x0b' || c == '\x0c'

/-- Python `s.lower()`. -/
def pyLower (s : String) : String := String.mk (s.data.map Char.toLower)

/-- Python `s.strip()`. -/
def pyStrip (s : String) : String :=
  String.mk (((s.data.dropWhile isSpaceChar).reverse.dropWhile isSpaceChar).reverse)

/-! ## Upload limits (source lines 21-56) -/

def MAX_IMAGE_MB : Nat := 10
def MAX_VIDEO_MB : Nat := 50
def MBbytes : Nat := 1024 * 1024
def MAX_IMAGE_BYTES : Nat := MAX_IMAGE_MB * MBbytes
def MAX_VIDEO_BYTES : Nat := MAX_VIDEO_MB * MBbytes

def IMAGE_EXTS : List String := [".jpg", ".jpeg", ".png", ".gif", ".bmp", ".webp"]
def VIDEO_EXTS : List String := [".mp4", ".mov", ".avi", ".wmv", ".mkv", ".webm", ".ogg"]

/-- Python `pathlib.Path(p).suffix`: the extension of the final path component,
including the leading dot; empty when there is no dot, the dot is the
first character of the name, or the dot is the final character. -/
def pathSuffix (p : String) : String :=
  let name := ((p.splitOn "/").filter (fun comp => comp != "")).getLastD ""
  let cs := name.data
  match cs.reverse.findIdx? (fun c => c == '.') with
  | none => ""
  | some k =>
    let i := cs.length - 1 - k
    if 0 < i ∧ i < cs.length - 1 then String.mk (cs.drop i) else ""

/-- An uploaded file as seen by `validate_upload_limits`: its `name`,
its MIME `mime` (Python attribute `type`, possibly absent), its `size`
in bytes. -/
structure UploadedFile where
  name : String
  mime : Option String
  size : Nat
deriving DecidableEq

/-- Source `_guess_is_image_or_video` (lines 30-38): classify by MIME
prefix when a non-empty MIME string is present, else by extension. -/
def guess_is_image_or_video (file_name : String) (mime : Option String) :
    Option String × String :=
  let ext := pyLower (pathSuffix file_name)
  let mimeStr := mime.getD ""
  if mimeStr ≠ "" ∧ mimeStr.startsWith "image/" then (some "image", ext)
  else if mimeStr ≠ "" ∧ mimeStr.startsWith "video/" then (some "video", ext)
  else if IMAGE_EXTS.contains ext then (some "image", ext)
  else if VIDEO_EXTS.contains ext then (some "video", ext)
  else (none, ext)

/-- Two-decimal rendering of `size / MBbytes`, used in the error texts
of `validate_upload_limits`. -/
def format_mb (size : Nat) : String :=
  let centesimas := (size * 100 + MBbytes / 2) / MBbytes
  toString (centesimas / 100) ++ "." ++
    (if centesimas % 100 < 10 then "0" else "") ++ toString (centesimas % 100)

/-- Source `validate_upload_limits` (lines 40-56): `(ok, mensaje_error)`. -/
def validate_upload_limits (uploaded_file : Option UploadedFile) : Bool × String :=
  match uploaded_file with
  | none => (true, "")
  | some uf =>
    let kind := (guess_is_image_or_video uf.name uf.mime).1
    if kind = some "image" then
      if uf.size > MAX_IMAGE_BYTES then
        (false, "❌ La imagen pesa " ++ format_mb uf.size ++ " MB y el límite es 10 MB.")
      else (true, "")
    else if kind = some "video" then
      if uf.size > MAX_VIDEO_BYTES then
        (false, "❌ El video pesa " ++ format_mb uf.size ++ " MB y el límite es 50 MB.")
      else (true, "")
    else
      (false, "❌ Solo se permiten imágenes (jpg, png, webp, …) o videos (mp4, mov, webm, …).")

/-- Modelled from the claim C10 wording only, for comparison with the
source function: `None` accepted; image accepted iff at most 10 MB;
video accepted iff at most 50 MB; anything else rejected. -/
def specUploadVerdict (f : Option UploadedFile) : Bool :=
  match f with
  | none => true
  | some uf =>
    let kind := (guess_is_image_or_video uf.name uf.mime).1
    if kind = some "image" then decide (uf.size ≤ MAX_IMAGE_BYTES)
    else if kind = some "video" then decide (uf.size ≤ MAX_VIDEO_BYTES)
    else false

/-! ## Email normalisation `_email_norm` (source lines 61-69)

The regex `([A-Z0-9._%+-]+@[A-Z0-9.-]+\.[A-Z]{2,})` (case-insensitive)
is embedded with Python `re.search` semantics: leftmost starting
position, greedy quantifiers with backtracking. -/

def isLetterChar (c : Char) : Bool := ('A' ≤ c && c ≤ 'Z') || ('a' ≤ c && c ≤ 'z')
def isDigitChar (c : Char) : Bool := '0' ≤ c && c ≤ '9'
def inClassA (c : Char) : Bool :=
  isLetterChar c || isDigitChar c || c == '.' || c == '_' || c == '%' || c == '+' || c == '-'
def inClassB (c : Char) : Bool :=
  isLetterChar c || isDigitChar c || c == '.' || c == '-'

/-- Backtracking split of the `[A-Z0-9.-]+\.[A-Z]{2,}` tail: inside the
maximal class-B run `b`, find the largest `q ≥ 1` with `b[q] = '.'`
followed by at least two letters; return the matched length. -/
def findSplit (b : List Char) : Option Nat :=
  ((List.range b.length).reverse).findSome? fun q =>
    if 1 ≤ q ∧ b.getD q ' ' = '.' then
      let l := ((b.drop (q + 1)).takeWhile isLetterChar).length
      if 2 ≤ l then some (q + 1 + l) else none
    else none

/-- Attempt the email regex match anchored at the head of `l`. -/
def matchAt (l : List Char) : Option (List Char) :=
  let a := l.takeWhile inClassA
  if a.isEmpty then none
  else
    match l.drop a.length with
    | [] => none
    | c :: rest =>
      if c = '@' then
        let b := rest.takeWhile inClassB
        match findSplit b with
        | some n => some (a ++ '@' :: b.take n)
        | none => none
      else none

/-- Python `re.search`: try each start position left to right. -/
def searchEmail : List Char → Option (List Char)
  | [] => none
  | c :: rest =>
    match matchAt (c :: rest) with
    | some m => some m
    | none => searchEmail rest

/-- Source `_email_norm` (lines 62-69). -/
def email_norm (s : String) : String :=
  match searchEmail s.data with
  | some m => pyLower (pyStrip (String.mk m))
  | none => pyLower (pyStrip s)

/-! ## Retry wrapper `with_backoff` (source lines 78-93) -/

/-- One invocation outcome of the wrapped operation: a result, a
gspread `APIError` with its message, or any other exception. -/
inductive Outcome (α : Type)
  | success (a : α)
  | apiError (msg : String)
  | otherError (msg : String)
deriving DecidableEq

/-- Whether `pat` is a prefix of `s` (over character lists). -/
def isPrefixList : List Char → List Char → Bool
  | [], _ => true
  | _ :: _, [] => false
  | p :: ps, c :: cs => p == c && isPrefixList ps cs

/-- Whether `pat` occurs as a contiguous sublist of `s`. -/
def containsSub (pat : List Char) : List Char → Bool
  | [] => isPrefixList pat []
  | c :: rest => isPrefixList pat (c :: rest) || containsSub pat rest

/-- Python `pat in s` substring test. -/
def strContains (s pat : String) : Bool := containsSub pat.data s.data

/-- The rate-limit test of line 83: `"429" in str(e) or ("403" in str(e)
and "rateLimitExceeded" in str(e))`. -/
def isRateLimitedMsg (msg : String) : Bool :=
  strContains msg "429" || (strContains msg "403" && strContains msg "rateLimitExceeded")

/-- An outcome the loop retries on: a rate-limited `APIError`, or any
non-`APIError` exception (lines 89-92 retry every generic exception). -/
def retryable {α : Type} : Outcome α → Bool
  | .success _ => false
  | .apiError msg => isRateLimitedMsg msg
  | .otherError _ => true

inductive BackoffOutcome (α : Type)
  | ok (a : α)
  | raised (msg : String)
  | exhausted (msg : String)
deriving DecidableEq

/-- Observable behaviour of one `with_backoff` run: how many times the
operation was invoked, the sleeps performed (seconds, in order), and
the final outcome. -/
structure BackoffTrace (α : Type) where
  calls : Nat
  waits : List ℚ
  result : BackoffOutcome α
deriving DecidableEq

/-- The `for i in range(5)` loop body, with `r` attempts remaining and
`i` the current attempt index; `op n` is the outcome of the n-th
invocation and `jitter n` the `random.random()` draw of attempt `n`. -/
def withBackoffGo {α : Type} (fnName : String) (op : Nat → Outcome α)
    (jitter : Nat → ℚ) : Nat → Nat → BackoffTrace α
  | 0, _ => ⟨0, [], .exhausted ("Failed after multiple retries for " ++ fnName)⟩
  | r + 1, i =>
    match op i with
    | .success a => ⟨1, [], .ok a⟩
    | .apiError msg =>
      if isRateLimitedMsg msg then
        let t := withBackoffGo fnName op jitter r (i + 1)
        ⟨t.calls + 1, min ((2 : ℚ) ^ i + jitter i) 16 :: t.waits, t.result⟩
      else ⟨1, [], .raised msg⟩
    | .otherError _ =>
      let t := withBackoffGo fnName op jitter r (i + 1)
      ⟨t.calls + 1, min ((2 : ℚ) ^ i + jitter i) 16 :: t.waits, t.result⟩

/-- Source `with_backoff` (lines 78-93). -/
def with_backoff {α : Type} (fnName : String) (op : Nat → Outcome α)
    (jitter : Nat → ℚ) : BackoffTrace α :=
  withBackoffGo fnName op jitter 5 0

/-! ## Catalogs and the cascading form (source lines 512-717)

The only live "Solicitudes CRM" branch is the first one (lines
512-717); the second `elif` with the same condition (line 720) is
unreachable. The callbacks `on_change_area` / `on_change_perfil`
(lines 337-343) are defined but never attached to any widget, so the
cascade resets happen through the option-membership checks of the
rerun (lines 586-644). -/

/-- The per-role entry of `numeros_por_rol.json`: the dict keys
`Numero_IN` and `Numero_Saliente`, defaulting to empty lists. -/
structure RolNums where
  numero_IN : List String
  numero_Saliente : List String
deriving DecidableEq

/-- The three static catalogs loaded at lines 240-242:
`estructura_roles` (area → perfil → roles), `numeros_por_rol`
(rol → numbers) and `horarios_dict` (horario → turno), as
association lists. -/
structure Catalog where
  estructura_roles : List (String × List (String × List String))
  numeros_por_rol : List (String × RolNums)
  horarios_dict : List (String × String)

/-- The session-state fields of one form instance (lines 516-527). -/
structure FormState where
  sel_tipo : String
  sel_area : String
  sel_perfil : String
  sel_rol : String
  sel_horario : String
  sel_turno : String
deriving DecidableEq

/-- Keys of `estructura_roles[area]` (empty when `area` is no key),
the profile options added at lines 595-597. -/
def perfilesOf (cat : Catalog) (area : String) : List String :=
  match cat.estructura_roles.lookup area with
  | some perfiles => perfiles.map Prod.fst
  | none => []

/-- Lookup `estructura_roles[area][perfil]` when both keys exist, else empty:
the role options added at lines 609-614. -/
def rolesOf (cat : Catalog) (area perfil : String) : List String :=
  match cat.estructura_roles.lookup area with
  | some perfiles =>
    match perfiles.lookup perfil with
    | some roles => roles
    | none => []
  | none => []

/-- Line 626: `sel_perfil in {"Agente de Call Center", "Ejecutivo AC"}`. -/
def requiere_horario (perfil : String) : Bool :=
  perfil == "Agente de Call Center" || perfil == "Ejecutivo AC"

/-- The area selectbox fallback (lines 586-592): keep the stored value
when it is among the options, else index 0, i.e. `"Selecciona..."`. -/
def effectiveArea (cat : Catalog) (a : String) : String :=
  if a ∈ "Selecciona..." :: cat.estructura_roles.map Prod.fst then a else "Selecciona..."

/-- Lines 595-599: reset `sel_perfil` unless it is still an option
under the (new) area. -/
def effPerfil (cat : Catalog) (area perfil : String) : String :=
  if perfil ∈ "Selecciona..." :: perfilesOf cat area then perfil else "Selecciona..."

/-- Lines 609-616: reset `sel_rol` unless still an option. -/
def effRol (cat : Catalog) (area perfil rol : String) : String :=
  if rol ∈ "Selecciona..." :: rolesOf cat area perfil then rol else "Selecciona..."

/-- Lines 628-630: reset `sel_horario` unless still an option. -/
def effHorario (cat : Catalog) (horario : String) : String :=
  if horario ∈ "Selecciona..." :: cat.horarios_dict.map Prod.fst then horario
  else "Selecciona..."

/-- Lines 637-640: `sel_turno = horarios_dict.get(sel_horario, "") if
sel_horario != "Selecciona..." else ""`. -/
def turnoFor (cat : Catalog) (horario : String) : String :=
  if horario = "Selecciona..." then "" else (cat.horarios_dict.lookup horario).getD ""

/-- One full execution of the cascade section (lines 586-644) over the
session state: each field is narrowed against the options derived from
its parents; `sel_horario`/`sel_turno` exist only for the profiles
requiring a schedule and are reset otherwise (lines 642-644). -/
def rerunCascade (cat : Catalog) (s : FormState) : FormState :=
  { sel_tipo := s.sel_tipo
    sel_area := effectiveArea cat s.sel_area
    sel_perfil := effPerfil cat (effectiveArea cat s.sel_area) s.sel_perfil
    sel_rol := effRol cat (effectiveArea cat s.sel_area)
      (effPerfil cat (effectiveArea cat s.sel_area) s.sel_perfil) s.sel_rol
    sel_horario :=
      if requiere_horario (effPerfil cat (effectiveArea cat s.sel_area) s.sel_perfil)
      then effHorario cat s.sel_horario else "Selecciona..."
    sel_turno :=
      if requiere_horario (effPerfil cat (effectiveArea cat s.sel_area) s.sel_perfil)
      then turnoFor cat (effHorario cat s.sel_horario) else "" }

/-- A user interaction with one of the five writable widgets. -/
inductive FieldOp
  | setTipo (v : String)
  | setArea (v : String)
  | setPerfil (v : String)
  | setRol (v : String)
  | setHorario (v : String)

def setField (s : FormState) : FieldOp → FormState
  | .setTipo v => { s with sel_tipo := v }
  | .setArea v => { s with sel_area := v }
  | .setPerfil v => { s with sel_perfil := v }
  | .setRol v => { s with sel_rol := v }
  | .setHorario v => { s with sel_horario := v }

/-- A widget change followed by the Streamlit rerun: when the selected
`tipo` is `"Baja"` the script stops before the cascade (lines 538-581),
otherwise the cascade section re-executes. -/
def applyOp (cat : Catalog) (s : FormState) (op : FieldOp) : FormState :=
  let s1 := setField s op
  if s1.sel_tipo = "Baja" then s1 else rerunCascade cat s1

def runOps (cat : Catalog) (s : FormState) (ops : List FieldOp) : FormState :=
  ops.foldl (applyOp cat) s

/-- Lines 516-527: every cascade field starts `"Selecciona..."`, the
derived `sel_turno` starts empty. -/
def initState : FormState :=
  ⟨"Selecciona...", "Selecciona...", "Selecciona...", "Selecciona...", "Selecciona...", ""⟩

/-! ## Submission handlers -/

/-- The `Baja` submit handler (lines 547-569): validation needs only
the three text fields; the appended row fixes `N/A` for the cascade
columns. `fecha` is `now_mx_str()` and `ids` is `str(uuid4())`. -/
def submit_baja (nombre correo correo_solicitante fecha ids : String) :
    Option (List String) :=
  if nombre = "" ∨ correo = "" ∨ correo_solicitante = "" then none
  else some [fecha, "Baja", pyStrip nombre, pyStrip correo, "N/A", "N/A", "N/A",
    "", "", "", "", email_norm correo_solicitante, "Pendiente", "", "", ids, "", ""]

/-- The three validation rejections of lines 676-684. -/
inductive SubmitError
  | missingBasic
  | missingCascade
  | missingHorario
deriving DecidableEq

/-- The Alta/Modificación submit handler (lines 668-708): the three
`st.warning`+`st.stop` gates, then the sentinel mapping of the number
fields (lines 686-687), then the appended `fila_sol` (lines 690-707).
`numero_in`/`numero_saliente` are the form's selectbox values and are
`""` when the role shows no number widgets (lines 654-663). -/
def submitSol (cat : Catalog) (s : FormState)
    (nombre correo correo_solicitante numero_in numero_saliente fecha ids : String) :
    Except SubmitError (List String) :=
  let horario := if requiere_horario s.sel_perfil then s.sel_horario else ""
  let turno := if requiere_horario s.sel_perfil then s.sel_turno else ""
  if s.sel_tipo = "Selecciona..." ∨ nombre = "" ∨ correo = "" ∨ correo_solicitante = "" then
    Except.error SubmitError.missingBasic
  else if s.sel_area = "Selecciona..." ∨ s.sel_perfil = "Selecciona..." ∨
      s.sel_rol = "Selecciona..." then
    Except.error SubmitError.missingCascade
  else if requiere_horario s.sel_perfil ∧ horario = "Selecciona..." then
    Except.error SubmitError.missingHorario
  else
    let num_in_val :=
      if s.sel_rol ∉ cat.numeros_por_rol.map Prod.fst ∨ numero_in = "No aplica" ∨
          numero_in = "" then "" else numero_in
    let num_out_val :=
      if s.sel_rol ∉ cat.numeros_por_rol.map Prod.fst ∨ numero_saliente = "No aplica" ∨
          numero_saliente = "" then "" else numero_saliente
    Except.ok [fecha, s.sel_tipo, pyStrip nombre, pyStrip correo, s.sel_area, s.sel_perfil,
      s.sel_rol, num_in_val, num_out_val, horario, turno,
      email_norm correo_solicitante, "Pendiente", "", "", ids, "", ""]

/-- Modelled from the spec record schema (C9 wording, for comparison
with `fila_sol`): `[timestamp, requestType, targetName, targetEmail,
area, profile, role, inboundNumber, outboundNumber, schedule, shift,
requesterEmail, status, reserved, reserved, id, satisfaction,
satisfactionComment]`. -/
def specRecordOrder (timestamp requestType targetName targetEmail area profile role
    inboundNumber outboundNumber schedule shiftLabel requesterEmail status ids
    satisfaction satisfactionComment : String) : List String :=
  [timestamp, requestType, targetName, targetEmail, area, profile, role,
    inboundNumber, outboundNumber, schedule, shiftLabel, requesterEmail, status,
    "", "", ids, satisfaction, satisfactionComment]

/-! ## Concrete fixtures used by counterexamples and witnesses -/

/-- A catalog matching spec Scenario A/B: area `Sales`, profile
`Agente de Call Center` (requires a schedule), role `Agent-1` with
inbound numbers, schedule `Morning-A` with shift `6am-2pm`. -/
def exCat : Catalog :=
  { estructura_roles := [("Sales", [("Agente de Call Center", ["Agent-1"])])]
    numeros_por_rol := [("Agent-1", ⟨["100", "101"], ["200"]⟩)]
    horarios_dict := [("Morning-A", "6am-2pm")] }

/-- A catalog whose two areas share the profile name `Perfil1`. -/
def exCatShared : Catalog :=
  { estructura_roles := [("A", [("Perfil1", ["R1"])]), ("B", [("Perfil1", ["R2"])])]
    numeros_por_rol := []
    horarios_dict := [] }

/-- Scenario A/B state just before choosing the schedule. -/
def exState0 : FormState :=
  runOps exCat initState
    [FieldOp.setTipo "Alta", FieldOp.setArea "Sales",
     FieldOp.setPerfil "Agente de Call Center", FieldOp.setRol "Agent-1"]

/-- Scenario A/B state with the schedule chosen. -/
def exState1 : FormState :=
  applyOp exCat exState0 (FieldOp.setHorario "Morning-A")

/-- Operation raising a rate-limit `APIError` twice, then succeeding. -/
def exOpRate : Nat → Outcome Nat := fun i =>
  if i < 2 then Outcome.apiError "429 rate limit" else Outcome.success 42

/-- Operation always raising a permission-denied `APIError`. -/
def exOpFatal : Nat → Outcome Nat := fun _ =>
  Outcome.apiError "403 PERMISSION_DENIED"

/-- Operation always raising a generic connection exception. -/
def exOpTimeout : Nat → Outcome Nat := fun _ => Outcome.otherError "timeout"

/-- A degenerate jitter sequence (always zero). -/
def exJitter : Nat → ℚ := fun _ => 0

/-- Row of the C9 witness submission. -/
def exFila2 : List String :=
  ["f2", "Alta", "Juan Perez", "juan@x.com", "Sales", "Agente de Call Center", "Agent-1",
   "", "", "Morning-A", "6am-2pm", "ana@x.com", "Pendiente", "", "", "id2", "", ""]

/-- Row of the C8 witness submission. -/
def exFila3 : List String :=
  ["f3", "Alta", "Juan Perez", "juan@x.com", "Sales", "Agente de Call Center", "Agent-1",
   "100", "200", "Morning-A", "6am-2pm", "ana@x.com", "Pendiente", "", "", "id3", "", ""]

/-! ## Lemmas about `withBackoffGo` -/

theorem withBackoffGo_succ_spec {α : Type} (fnName : String) (op : Nat → Outcome α)
    (jitter : Nat → ℚ) (a : α) :
    ∀ (m i0 r : Nat), m < r → (∀ j, j < m → retryable (op (i0 + j)) = true) →
    op (i0 + m) = Outcome.success a →
    (withBackoffGo fnName op jitter r i0).calls = m + 1 ∧
    (withBackoffGo fnName op jitter r i0).result = BackoffOutcome.ok a := by
  intro m
  induction m with
  | zero =>
    intro i0 r hr _ hs
    cases r with
    | zero => omega
    | succ r =>
      rw [Nat.add_zero] at hs
      simp [withBackoffGo, hs]
  | succ m ih =>
    intro i0 r hr hf hs
    cases r with
    | zero => omega
    | succ r =>
      have h0 : retryable (op i0) = true := by
        have h := hf 0 (Nat.succ_pos m)
        rwa [Nat.add_zero] at h
      have hf2 : ∀ j, j < m → retryable (op (i0 + 1 + j)) = true := by
        intro j hj
        have h := hf (j + 1) (by omega)
        rwa [show i0 + (j + 1) = i0 + 1 + j by omega] at h
      have hs2 : op (i0 + 1 + m) = Outcome.success a := by
        rwa [show i0 + 1 + m = i0 + (m + 1) by omega]
      have ih2 := ih (i0 + 1) r (by omega) hf2 hs2
      cases hop : op i0 with
      | success a2 => rw [hop] at h0; simp [retryable] at h0
      | apiError msg =>
        have hrl : isRateLimitedMsg msg = true := by
          rw [hop] at h0; simpa [retryable] using h0
        simp only [withBackoffGo, hop, hrl, if_true]
        exact ⟨by rw [ih2.1], ih2.2⟩
      | otherError msg =>
        simp only [withBackoffGo, hop]
        exact ⟨by rw [ih2.1], ih2.2⟩

theorem withBackoffGo_exhaust {α : Type} (fnName : String) (op : Nat → Outcome α)
    (jitter : Nat → ℚ) :
    ∀ (r i0 : Nat), (∀ j, j < r → retryable (op (i0 + j)) = true) →
    (withBackoffGo fnName op jitter r i0).calls = r ∧
    (withBackoffGo fnName op jitter r i0).result =
      BackoffOutcome.exhausted ("Failed after multiple retries for " ++ fnName) := by
  intro r
  induction r with
  | zero => intro i0 _; simp [withBackoffGo]
  | succ r ih =>
    intro i0 hf
    have h0 : retryable (op i0) = true := by
      have h := hf 0 (Nat.succ_pos r)
      rwa [Nat.add_zero] at h
    have hf2 : ∀ j, j < r → retryable (op (i0 + 1 + j)) = true := by
      intro j hj
      have h := hf (j + 1) (by omega)
      rwa [show i0 + (j + 1) = i0 + 1 + j by omega] at h
    have ih2 := ih (i0 + 1) hf2
    cases hop : op i0 with
    | success a2 => rw [hop] at h0; simp [retryable] at h0
    | apiError msg =>
      have hrl : isRateLimitedMsg msg = true := by
        rw [hop] at h0; simpa [retryable] using h0
      simp only [withBackoffGo, hop, hrl, if_true]
      exact ⟨by rw [ih2.1], ih2.2⟩
    | otherError msg =>
      simp only [withBackoffGo, hop]
      exact ⟨by rw [ih2.1], ih2.2⟩

theorem withBackoffGo_waits {α : Type} (fnName : String) (op : Nat → Outcome α)
    (jitter : Nat → ℚ) :
    ∀ (r i0 j : Nat) (w : ℚ),
    (withBackoffGo fnName op jitter r i0).waits.get? j = some w →
    w = min ((2 : ℚ) ^ (i0 + j) + jitter (i0 + j)) 16 := by
  intro r
  induction r with
  | zero => intro i0 j w h; simp [withBackoffGo] at h
  | succ r ih =>
    intro i0 j w h
    cases hop : op i0 with
    | success a2 => simp only [withBackoffGo, hop] at h; simp at h
    | apiError msg =>
      cases hrl : isRateLimitedMsg msg with
      | false => simp only [withBackoffGo, hop, hrl] at h; simp at h
      | true =>
        simp only [withBackoffGo, hop, hrl, if_true] at h
        cases j with
        | zero =>
          rw [Nat.add_zero]
          simp at h
          exact h.symm
        | succ j =>
          have h2 : (withBackoffGo fnName op jitter r (i0 + 1)).waits.get? j = some w := by
            simpa using h
          have := ih (i0 + 1) j w h2
          rwa [show i0 + 1 + j = i0 + (j + 1) by omega] at this
    | otherError msg =>
      simp only [withBackoffGo, hop] at h
      cases j with
      | zero =>
        rw [Nat.add_zero]
        simp at h
        exact h.symm
      | succ j =>
        have h2 : (withBackoffGo fnName op jitter r (i0 + 1)).waits.get? j = some w := by
          simpa using h
        have := ih (i0 + 1) j w h2
        rwa [show i0 + 1 + j = i0 + (j + 1) by omega] at this

/-! ## Claims C3-C6 about `with_backoff` -/

/-- C3: for every operation and every `k < 5`, if the wrapped operation
raises a retryable failure (rate-limited or transient) on its first `k`
invocations and succeeds on invocation `k+1`, then `with_backoff`
invokes the operation exactly `k+1` times and returns that success
result. -/
theorem backoff_retry_then_success {α : Type} (fnName : String) (op : Nat → Outcome α)
    (jitter : Nat → ℚ) (a : α) (k : Nat) (hk : k < 5)
    (hfail : ∀ j, j < k → retryable (op j) = true)
    (hsucc : op k = Outcome.success a) :
    (with_backoff fnName op jitter).calls = k + 1 ∧
    (with_backoff fnName op jitter).result = BackoffOutcome.ok a :=
  withBackoffGo_succ_spec fnName op jitter a k 0 5 hk
    (fun j hj => by simpa using hfail j hj) (by simpa using hsucc)

/-- C3 witness: a rate-limit error twice, then success, gives exactly
3 invocations and the success result. -/
theorem backoff_retry_then_success_witness :
    (with_backoff "append_row" exOpRate exJitter).calls = 3 ∧
    (with_backoff "append_row" exOpRate exJitter).result = BackoffOutcome.ok 42 :=
  backoff_retry_then_success "append_row" exOpRate exJitter 42 2 (by decide)
    (by decide) (by decide)

/-- C4: on a failure that is an `APIError` not classified as
rate-limited (e.g. permission denied, not-found), `with_backoff`
invokes the operation exactly once, performs no backoff wait, and
propagates that same error. -/
theorem backoff_fatal_no_retry {α : Type} (fnName : String) (op : Nat → Outcome α)
    (jitter : Nat → ℚ) (msg : String) (h1 : op 0 = Outcome.apiError msg)
    (h2 : isRateLimitedMsg msg = false) :
    (with_backoff fnName op jitter).calls = 1 ∧
    (with_backoff fnName op jitter).waits = [] ∧
    (with_backoff fnName op jitter).result = BackoffOutcome.raised msg := by
  unfold with_backoff
  rw [show (5 : Nat) = 4 + 1 from rfl]
  simp [withBackoffGo, h1, h2]

/-- C4 witness: a permission-denied `APIError` is invoked once and
propagated without any wait. -/
theorem backoff_fatal_no_retry_witness :
    (with_backoff "open_by_key" exOpFatal exJitter).calls = 1 ∧
    (with_backoff "open_by_key" exOpFatal exJitter).waits = [] ∧
    (with_backoff "open_by_key" exOpFatal exJitter).result =
      BackoffOutcome.raised "403 PERMISSION_DENIED" :=
  backoff_fatal_no_retry "open_by_key" exOpFatal exJitter "403 PERMISSION_DENIED"
    rfl (by decide)

/-- C5: every wait performed by `with_backoff` before retry number
`j+1` equals `min(2^j + jitter_j, 16)` seconds, hence is at most 16
seconds (with the jitter drawn from `[0,1)`). -/
theorem backoff_wait_formula {α : Type} (fnName : String) (op : Nat → Outcome α)
    (jitter : Nat → ℚ) (hj : ∀ n, 0 ≤ jitter n ∧ jitter n < 1) (j : Nat) (w : ℚ)
    (hw : (with_backoff fnName op jitter).waits.get? j = some w) :
    w = min ((2 : ℚ) ^ j + jitter j) 16 ∧ w ≤ 16 := by
  have h := withBackoffGo_waits fnName op jitter 5 0 j w hw
  rw [Nat.zero_add] at h
  exact ⟨h, h ▸ min_le_right _ _⟩

/-- C5 witness: the first wait of the rate-limited run is
`min(2^0 + 0, 16) = 1` second, at most 16. -/
theorem backoff_wait_formula_witness :
    (1 : ℚ) = min ((2 : ℚ) ^ 0 + exJitter 0) 16 ∧ (1 : ℚ) ≤ 16 :=
  backoff_wait_formula "append_row" exOpRate exJitter
    (by intro n; constructor <;> norm_num [exJitter]) 0 1 (by
      have h : (with_backoff "append_row" exOpRate exJitter).waits.get? 0 =
          some (min ((2 : ℚ) ^ 0 + exJitter 0) 16) := rfl
      rw [h]
      norm_num [exJitter, min_def])

/-- C6: when all 5 attempts raise retryable failures, `with_backoff`
invokes the operation exactly 5 times and terminates with the
retry-exhausted error whose message names the failing operation. -/
theorem backoff_exhausted {α : Type} (fnName : String) (op : Nat → Outcome α)
    (jitter : Nat → ℚ) (h : ∀ j, j < 5 → retryable (op j) = true) :
    (with_backoff fnName op jitter).calls = 5 ∧
    (with_backoff fnName op jitter).result =
      BackoffOutcome.exhausted ("Failed after multiple retries for " ++ fnName) :=
  withBackoffGo_exhaust fnName op jitter 5 0 (fun j hj => by simpa using h j hj)

/-- C6 witness: an always-failing transient operation exhausts the 5
attempts and the error message names `upload_from_file`. -/
theorem backoff_exhausted_witness :
    (with_backoff "upload_from_file" exOpTimeout exJitter).calls = 5 ∧
    (with_backoff "upload_from_file" exOpTimeout exJitter).result =
      BackoffOutcome.exhausted "Failed after multiple retries for upload_from_file" :=
  backoff_exhausted "upload_from_file" exOpTimeout exJitter (by decide)

/-! ## Lemmas about the cascade step -/

theorem applyOp_sel_tipo (cat : Catalog) (s : FormState) (op : FieldOp) :
    (applyOp cat s op).sel_tipo = (setField s op).sel_tipo := by
  show (if (setField s op).sel_tipo = "Baja" then setField s op
    else rerunCascade cat (setField s op)).sel_tipo = (setField s op).sel_tipo
  split
  · rfl
  · rfl

theorem applyOp_eq_rerun (cat : Catalog) (s : FormState) (op : FieldOp)
    (h : (setField s op).sel_tipo ≠ "Baja") :
    applyOp cat s op = rerunCascade cat (setField s op) := by
  show (if (setField s op).sel_tipo = "Baja" then setField s op
    else rerunCascade cat (setField s op)) = rerunCascade cat (setField s op)
  rw [if_neg h]

/-! ## Claim C2: resetting on area change -/

/-- C2 counterexample: with a catalog whose areas `A` and `B` share the
profile name `Perfil1`, after the sequence that ends by setting the
area to `B`, the profile field still holds `Perfil1` — it is **not**
`Unselected`/`"Selecciona..."` as the claim requires for every
sequence. -/
theorem cascade_area_counterexample :
    (runOps exCatShared initState
      [FieldOp.setTipo "Alta", FieldOp.setArea "A", FieldOp.setPerfil "Perfil1",
       FieldOp.setArea "B"]).sel_perfil = "Perfil1" ∧
    ("Perfil1" : String) ≠ "Selecciona..." :=
  ⟨by decide, by decide⟩

/-- C2 (amended): after setting the area, **provided the previously
selected profile is not listed under the newly effective area** (and
the catalog has no role list under the sentinel profile name), the
profile, role, schedule and shift fields are all `Unselected`/empty. -/
theorem cascade_reset_after_area (cat : Catalog) (s : FormState) (v : String)
    (htipo : s.sel_tipo ≠ "Baja")
    (hperf : s.sel_perfil ∉ perfilesOf cat (effectiveArea cat v))
    (hroles : rolesOf cat (effectiveArea cat v) "Selecciona..." = []) :
    (applyOp cat s (FieldOp.setArea v)).sel_perfil = "Selecciona..." ∧
    (applyOp cat s (FieldOp.setArea v)).sel_rol = "Selecciona..." ∧
    (applyOp cat s (FieldOp.setArea v)).sel_horario = "Selecciona..." ∧
    (applyOp cat s (FieldOp.setArea v)).sel_turno = "" := by
  have hstep : applyOp cat s (FieldOp.setArea v) =
      rerunCascade cat { s with sel_area := v } :=
    applyOp_eq_rerun cat s (FieldOp.setArea v) htipo
  have hperfil : effPerfil cat (effectiveArea cat v) s.sel_perfil = "Selecciona..." := by
    unfold effPerfil
    by_cases hmem : s.sel_perfil ∈ "Selecciona..." :: perfilesOf cat (effectiveArea cat v)
    · rw [if_pos hmem]
      rcases List.mem_cons.mp hmem with h | h
      · exact h
      · exact absurd h hperf
    · rw [if_neg hmem]
  have hrol : effRol cat (effectiveArea cat v) "Selecciona..." s.sel_rol =
      "Selecciona..." := by
    unfold effRol
    simp only [hroles]
    by_cases hmem : s.sel_rol ∈ ["Selecciona..."]
    · rw [if_pos hmem]
      simpa using hmem
    · rw [if_neg hmem]
  have hrh : requiere_horario "Selecciona..." = false := rfl
  rw [hstep]
  simp only [rerunCascade]
  refine ⟨hperfil, ?_, ?_, ?_⟩
  · rw [hperfil]
    exact hrol
  · rw [hperfil, hrh]
    simp
  · rw [hperfil, hrh]
    simp

/-- C2 witness for the amended statement: `Marketing` is not an area of
the scenario catalog, so after setting the area to it every dependent
field is reset. -/
theorem cascade_reset_after_area_witness :
    (applyOp exCat exState1 (FieldOp.setArea "Marketing")).sel_perfil = "Selecciona..." ∧
    (applyOp exCat exState1 (FieldOp.setArea "Marketing")).sel_rol = "Selecciona..." ∧
    (applyOp exCat exState1 (FieldOp.setArea "Marketing")).sel_horario = "Selecciona..." ∧
    (applyOp exCat exState1 (FieldOp.setArea "Marketing")).sel_turno = "" :=
  cascade_reset_after_area exCat exState1 "Marketing" (by decide) (by decide) (by decide)

/-! ## Lemmas about `submitSol` -/

/-- Shape of the appended row on any successful Alta/Modificación
submission. -/
theorem submitSol_ok_elim (cat : Catalog) (s : FormState)
    (nombre correo correo_solicitante numero_in numero_saliente fecha ids : String)
    (fila : List String)
    (h : submitSol cat s nombre correo correo_solicitante numero_in numero_saliente
      fecha ids = Except.ok fila) :
    fila = [fecha, s.sel_tipo, pyStrip nombre, pyStrip correo, s.sel_area, s.sel_perfil,
      s.sel_rol,
      (if s.sel_rol ∉ cat.numeros_por_rol.map Prod.fst ∨ numero_in = "No aplica" ∨
          numero_in = "" then "" else numero_in),
      (if s.sel_rol ∉ cat.numeros_por_rol.map Prod.fst ∨ numero_saliente = "No aplica" ∨
          numero_saliente = "" then "" else numero_saliente),
      (if requiere_horario s.sel_perfil then s.sel_horario else ""),
      (if requiere_horario s.sel_perfil then s.sel_turno else ""),
      email_norm correo_solicitante, "Pendiente", "", "", ids, "", ""] := by
  simp only [submitSol] at h
  by_cases hq : requiere_horario s.sel_perfil = true
  · simp [hq] at h ⊢
    split at h
    · exact absurd h (by simp)
    · split at h
      · exact absurd h (by simp)
      · split at h
        · exact absurd h (by simp)
        · injection h with h2
          exact h2.symm
  · simp [hq] at h ⊢
    split at h
    · exact absurd h (by simp)
    · split at h
      · exact absurd h (by simp)
      · injection h with h2
        exact h2.symm

/-- When the three validation gates pass, `submitSol` succeeds with the
explicit row. -/
theorem submitSol_ok_of (cat : Catalog) (s : FormState)
    (nombre correo correo_solicitante numero_in numero_saliente fecha ids : String)
    (h1 : s.sel_tipo ≠ "Selecciona...") (h2 : nombre ≠ "") (h3 : correo ≠ "")
    (h4 : correo_solicitante ≠ "")
    (h5 : s.sel_area ≠ "Selecciona...") (h6 : s.sel_perfil ≠ "Selecciona...")
    (h7 : s.sel_rol ≠ "Selecciona...")
    (h8 : requiere_horario s.sel_perfil = true → s.sel_horario ≠ "Selecciona...") :
    submitSol cat s nombre correo correo_solicitante numero_in numero_saliente fecha ids =
      Except.ok [fecha, s.sel_tipo, pyStrip nombre, pyStrip correo, s.sel_area,
        s.sel_perfil, s.sel_rol,
        (if s.sel_rol ∉ cat.numeros_por_rol.map Prod.fst ∨ numero_in = "No aplica" ∨
            numero_in = "" then "" else numero_in),
        (if s.sel_rol ∉ cat.numeros_por_rol.map Prod.fst ∨ numero_saliente = "No aplica" ∨
            numero_saliente = "" then "" else numero_saliente),
        (if requiere_horario s.sel_perfil then s.sel_horario else ""),
        (if requiere_horario s.sel_perfil then s.sel_turno else ""),
        email_norm correo_solicitante, "Pendiente", "", "", ids, "", ""] := by
  have hca : ¬ (s.sel_tipo = "Selecciona..." ∨ nombre = "" ∨ correo = "" ∨
      correo_solicitante = "") := by
    simp only [not_or]
    exact ⟨h1, h2, h3, h4⟩
  have hcb : ¬ (s.sel_area = "Selecciona..." ∨ s.sel_perfil = "Selecciona..." ∨
      s.sel_rol = "Selecciona...") := by
    simp only [not_or]
    exact ⟨h5, h6, h7⟩
  have hcc : ¬ (requiere_horario s.sel_perfil ∧
      (if requiere_horario s.sel_perfil then s.sel_horario else "") = "Selecciona...") := by
    rintro ⟨ha, hb⟩
    rw [if_pos ha] at hb
    exact h8 ha hb
  simp only [submitSol]
  rw [if_neg hca, if_neg hcb, if_neg hcc]

/-! ## Claim C1: no inbound-number validation -/

/-- C1 counterexample (spec Scenario A): catalog lists inbound numbers
for `Agent-1`, the inbound number is left `No aplica`, every other
required field is set — yet the submission is **accepted** (with the
inbound column empty), not rejected with a `MissingInboundNumber`
error; no such validation exists in the handler. -/
theorem inbound_unselected_accepted_counterexample :
    submitSol exCat exState1 "Juan Perez" "juan@x.com" "ana@x.com" "No aplica"
      "No aplica" "f1" "id1" =
    Except.ok ["f1", "Alta", "Juan Perez", "juan@x.com", "Sales", "Agente de Call Center",
      "Agent-1", "", "", "Morning-A", "6am-2pm", "ana@x.com", "Pendiente", "", "", "id1",
      "", ""] := rfl

/-- C1 (amended): on a submit attempt with `requestType ≠ Remove` where
the catalog's entry for the selected role lists at least one inbound
number and the inbound field is left `No aplica`, validation
**accepts** the submission and stores the inbound number as the empty
string. -/
theorem inbound_unselected_accepted (cat : Catalog) (s : FormState)
    (nombre correo correo_solicitante numero_in numero_saliente fecha ids : String)
    (hbaja : s.sel_tipo ≠ "Baja")
    (h1 : s.sel_tipo ≠ "Selecciona...") (h2 : nombre ≠ "") (h3 : correo ≠ "")
    (h4 : correo_solicitante ≠ "")
    (h5 : s.sel_area ≠ "Selecciona...") (h6 : s.sel_perfil ≠ "Selecciona...")
    (h7 : s.sel_rol ≠ "Selecciona...")
    (h8 : requiere_horario s.sel_perfil = true → s.sel_horario ≠ "Selecciona...")
    (hnums : ∃ nums, cat.numeros_por_rol.lookup s.sel_rol = some nums ∧
      nums.numero_IN ≠ [])
    (hni : numero_in = "No aplica") :
    ∃ fila, submitSol cat s nombre correo correo_solicitante numero_in numero_saliente
      fecha ids = Except.ok fila ∧ fila.get? 7 = some "" := by
  refine ⟨_, submitSol_ok_of cat s nombre correo correo_solicitante numero_in
    numero_saliente fecha ids h1 h2 h3 h4 h5 h6 h7 h8, ?_⟩
  show some (if s.sel_rol ∉ cat.numeros_por_rol.map Prod.fst ∨ numero_in = "No aplica" ∨
    numero_in = "" then "" else numero_in) = some ""
  rw [if_pos (Or.inr (Or.inl hni))]

/-- C1 witness for the amended statement, at the Scenario A input. -/
theorem inbound_unselected_accepted_witness :
    ∃ fila, submitSol exCat exState1 "Juan Perez" "juan@x.com" "ana@x.com" "No aplica"
      "200" "f1" "id1" = Except.ok fila ∧ fila.get? 7 = some "" :=
  inbound_unselected_accepted exCat exState1 "Juan Perez" "juan@x.com" "ana@x.com"
    "No aplica" "200" "f1" "id1" (by decide) (by decide) (by decide) (by decide)
    (by decide) (by decide) (by decide) (by decide) (fun _ => by decide)
    ⟨⟨["100", "101"], ["200"]⟩, by decide, by decide⟩ rfl

/-! ## Claim C7: the Baja route -/

/-- C7: a `Baja` (Remove) submission succeeds whenever the target name,
target email and requester email are non-empty; the handler never
consults the cascade fields (they do not even occur as inputs), and
the stored row fixes `N/A` in their columns. -/
theorem baja_only_needs_basics (nombre correo correo_solicitante fecha ids : String)
    (h1 : nombre ≠ "") (h2 : correo ≠ "") (h3 : correo_solicitante ≠ "") :
    submit_baja nombre correo correo_solicitante fecha ids =
      some [fecha, "Baja", pyStrip nombre, pyStrip correo, "N/A", "N/A", "N/A", "", "", "",
        "", email_norm correo_solicitante, "Pendiente", "", "", ids, "", ""] := by
  have hc : ¬ (nombre = "" ∨ correo = "" ∨ correo_solicitante = "") := by
    simp only [not_or]
    exact ⟨h1, h2, h3⟩
  unfold submit_baja
  rw [if_neg hc]

/-- C7 witness. -/
theorem baja_only_needs_basics_witness :
    submit_baja "Ana" "a@x.com" "b@x.com" "f" "i" =
      some ["f", "Baja", "Ana", "a@x.com", "N/A", "N/A", "N/A", "", "", "", "", "b@x.com",
        "Pendiente", "", "", "i", "", ""] :=
  baja_only_needs_basics "Ana" "a@x.com" "b@x.com" "f" "i" (by decide) (by decide)
    (by decide)

/-! ## Claim C8: the shift is derived from the schedule catalog -/

/-- C8: after any widget operation on a non-Baja form, when the
resulting profile requires a schedule and the selected schedule key has
catalog label `label`, the derived shift field equals `label`, and a
successful submission from that state stores `label` in the shift
column (index 10 of the row). -/
theorem shift_from_catalog (cat : Catalog) (s : FormState) (op : FieldOp)
    (nombre correo correo_solicitante numero_in numero_saliente fecha ids : String)
    (fila : List String) (label : String)
    (htipo : (applyOp cat s op).sel_tipo ≠ "Baja")
    (hreq : requiere_horario (applyOp cat s op).sel_perfil = true)
    (hhor : (applyOp cat s op).sel_horario ≠ "Selecciona...")
    (hkey : cat.horarios_dict.lookup (applyOp cat s op).sel_horario = some label) :
    (applyOp cat s op).sel_turno = label ∧
    (submitSol cat (applyOp cat s op) nombre correo correo_solicitante numero_in
        numero_saliente fecha ids = Except.ok fila →
      fila.get? 10 = some label) := by
  have ht1 : (setField s op).sel_tipo ≠ "Baja" := by
    rw [← applyOp_sel_tipo cat s op]
    exact htipo
  have hstep : applyOp cat s op = rerunCascade cat (setField s op) :=
    applyOp_eq_rerun cat s op ht1
  have hturno : (applyOp cat s op).sel_turno = label := by
    rw [hstep] at hreq hhor hkey ⊢
    simp only [rerunCascade] at hreq hhor hkey ⊢
    rw [if_pos hreq] at hhor hkey ⊢
    unfold turnoFor
    rw [if_neg hhor, hkey]
    rfl
  refine ⟨hturno, fun hsub => ?_⟩
  have hfila := submitSol_ok_elim cat (applyOp cat s op) nombre correo correo_solicitante
    numero_in numero_saliente fecha ids fila hsub
  rw [hfila]
  show some (if requiere_horario (applyOp cat s op).sel_perfil
    then (applyOp cat s op).sel_turno else "") = some label
  rw [if_pos hreq, hturno]

/-- C8 witness: choosing `Morning-A` makes the shift `6am-2pm`, also in
the submitted row. -/
theorem shift_from_catalog_witness :
    (applyOp exCat exState0 (FieldOp.setHorario "Morning-A")).sel_turno = "6am-2pm" ∧
    (submitSol exCat (applyOp exCat exState0 (FieldOp.setHorario "Morning-A")) "Juan Perez"
        "juan@x.com" "ana@x.com" "100" "200" "f3" "id3" = Except.ok exFila3 →
      exFila3.get? 10 = some "6am-2pm") :=
  shift_from_catalog exCat exState0 (FieldOp.setHorario "Morning-A") "Juan Perez"
    "juan@x.com" "ana@x.com" "100" "200" "f3" "id3" exFila3 "6am-2pm" (by decide)
    (by decide) (by decide) (by decide)

/-! ## Claim C9: the record schema -/

/-- C9: every successful submission's appended row follows the spec's
record schema order (`specRecordOrder`), with status `Pendiente`, the
generated id in the id column (index 15), and a `No aplica` sentinel in
either number field stored as the empty string. -/
theorem record_schema_on_success (cat : Catalog) (s : FormState)
    (nombre correo correo_solicitante numero_in numero_saliente fecha ids : String)
    (fila : List String)
    (h : submitSol cat s nombre correo correo_solicitante numero_in numero_saliente
      fecha ids = Except.ok fila) :
    fila = specRecordOrder fecha s.sel_tipo (pyStrip nombre) (pyStrip correo) s.sel_area
      s.sel_perfil s.sel_rol
      (if s.sel_rol ∉ cat.numeros_por_rol.map Prod.fst ∨ numero_in = "No aplica" ∨
          numero_in = "" then "" else numero_in)
      (if s.sel_rol ∉ cat.numeros_por_rol.map Prod.fst ∨ numero_saliente = "No aplica" ∨
          numero_saliente = "" then "" else numero_saliente)
      (if requiere_horario s.sel_perfil then s.sel_horario else "")
      (if requiere_horario s.sel_perfil then s.sel_turno else "")
      (email_norm correo_solicitante) "Pendiente" ids "" "" ∧
    (numero_in = "No aplica" → fila.get? 7 = some "") ∧
    (numero_saliente = "No aplica" → fila.get? 8 = some "") ∧
    fila.get? 12 = some "Pendiente" ∧ fila.get? 15 = some ids := by
  have hfila := submitSol_ok_elim cat s nombre correo correo_solicitante numero_in
    numero_saliente fecha ids fila h
  subst hfila
  refine ⟨rfl, ?_, ?_, rfl, rfl⟩
  · intro hni
    show some (if s.sel_rol ∉ cat.numeros_por_rol.map Prod.fst ∨ numero_in = "No aplica" ∨
      numero_in = "" then "" else numero_in) = some ""
    rw [if_pos (Or.inr (Or.inl hni))]
  · intro hns
    show some (if s.sel_rol ∉ cat.numeros_por_rol.map Prod.fst ∨
      numero_saliente = "No aplica" ∨ numero_saliente = "" then "" else numero_saliente) =
      some ""
    rw [if_pos (Or.inr (Or.inl hns))]

/-- C9 witness at the Scenario B submission. -/
theorem record_schema_on_success_witness :
    exFila2 = specRecordOrder "f2" "Alta" "Juan Perez" "juan@x.com" "Sales"
      "Agente de Call Center" "Agent-1" "" "" "Morning-A" "6am-2pm" "ana@x.com"
      "Pendiente" "id2" "" "" ∧
    ("No aplica" = "No aplica" → exFila2.get? 7 = some "") ∧
    ("No aplica" = "No aplica" → exFila2.get? 8 = some "") ∧
    exFila2.get? 12 = some "Pendiente" ∧ exFila2.get? 15 = some "id2" :=
  record_schema_on_success exCat exState1 "Juan Perez" "juan@x.com" "ana@x.com"
    "No aplica" "No aplica" "f2" "id2" exFila2 rfl

/-! ## Claim C10: upload limits -/

/-- C10: `validate_upload_limits` is total on its interface and accepts
exactly per the limits: `None` yields `(true, "")`, an image is
accepted iff its size is at most `MAX_IMAGE_BYTES` (10 MB), a video iff
at most `MAX_VIDEO_BYTES` (50 MB), and a file classified as neither is
rejected. -/
theorem upload_limits_spec (f : Option UploadedFile) :
    (validate_upload_limits f).1 = specUploadVerdict f ∧
    validate_upload_limits none = (true, "") := by
  refine ⟨?_, rfl⟩
  cases f with
  | none => rfl
  | some uf =>
    simp only [validate_upload_limits, specUploadVerdict]
    by_cases h1 : (guess_is_image_or_video uf.name uf.mime).1 = some "image"
    · by_cases hs : uf.size > MAX_IMAGE_BYTES
      · have hle : ¬ uf.size ≤ MAX_IMAGE_BYTES := by omega
        simp [h1, hs, hle]
      · have hle : uf.size ≤ MAX_IMAGE_BYTES := by omega
        simp [h1, hs, hle]
    · by_cases h2 : (guess_is_image_or_video uf.name uf.mime).1 = some "video"
      · by_cases hs : uf.size > MAX_VIDEO_BYTES
        · have hle : ¬ uf.size ≤ MAX_VIDEO_BYTES := by omega
          simp [h1, h2, hs, hle]
        · have hle : uf.size ≤ MAX_VIDEO_BYTES := by omega
          simp [h1, h2, hs, hle]
      · simp [h1, h2]

/-- C10 witness: a 60 MB video is rejected, matching the verdict. -/
theorem upload_limits_spec_witness :
    (validate_upload_limits (some ⟨"video.mp4", none, 60 * MBbytes⟩)).1 =
      specUploadVerdict (some ⟨"video.mp4", none, 60 * MBbytes⟩) ∧
    validate_upload_limits none = (true, "") :=
  upload_limits_spec (some ⟨"video.mp4", none, 60 * MBbytes⟩)

end AppSolicitud
